import Mathlib

/-!
Verification development for the `win-dialog` repository.

The repository contains two iterations of the library:

* `src/lib.rs` — an early, shell-mediated iteration: a `WinDialog` struct
  holding header / content / display duration / style, serialized to a
  PowerShell `Wscript.Shell.popup` invocation, whose stdout is decoded into
  a flat `DialogResponse` enum.  Several branches of this iteration are
  `todo!()` (panics).
* `src/dialog.rs`, `src/style.rs`, `src/error.rs`, `src/icon.rs`,
  `src/modality.rs` — the native iteration: a generically typed
  `WinDialog<T: DialogStyle>` builder dispatched through `MessageBoxA`,
  with one response enum per style and a closed `Error` taxonomy.

Both iterations are shallowly embedded below.  Machine integers are
modelled by `Nat`/`Int` (no arithmetic here ever approaches a wrap),
`Duration` by its whole-second count (the source only ever calls
`as_secs`), fallible Rust code by `Except`, and `panic!`/`todo!` by an
explicit `PanicOr` outcome type.  The external collaborators (the
PowerShell child process, the native `MessageBoxA` call) are passed in as
explicit stub functions, exactly matching the "send configuration, receive
raw response code" boundary.
-/

namespace WinDialogSpec

/-- Outcome of running a piece of Rust code that may `panic!` (including
`todo!`, which panics with a "not yet implemented"-style message). -/
inductive PanicOr (α : Type) where
  | panics (msg : String) : PanicOr α
  | returns (val : α) : PanicOr α
deriving DecidableEq, Repr

namespace Shell

/-- `DialogStyle` of the shell-mediated iteration (src/lib.rs, lines
146-156).  The numeric value of each variant is its Rust discriminant. -/
inductive DialogStyle where
  | OkClose
  | OkCancelClose
  | AbortRetryIgnore
  | YesNoCancelClose
  | YesNo
  | RetryCancelClose
  | CancelRetryContinueClose
deriving DecidableEq, Repr

/-- The discriminant of each `DialogStyle` variant; this is the value of
the `style as usize` cast in `get_param_string`. -/
def DialogStyle.code : DialogStyle → Nat
  | .OkClose => 64
  | .OkCancelClose => 65
  | .AbortRetryIgnore => 66
  | .YesNoCancelClose => 67
  | .YesNo => 68
  | .RetryCancelClose => 69
  | .CancelRetryContinueClose => 70

/-- The `WinDialog` struct of the shell-mediated iteration (src/lib.rs,
lines 3-9).  `display_duration` is the `Duration` in whole seconds (the
source only ever reads `as_secs`).  Field defaults mirror
`derive(Default)`. -/
structure WinDialog where
  header : Option String := none
  content : String := ""
  display_duration : Option Nat := none
  style : Option DialogStyle := none
deriving DecidableEq, Repr

/-- The four-slot parameter array built by `get_param_string`
(src/lib.rs, lines 12-29): slot 0 is the quoted content, slot 1 the
duration, slot 2 the header, slot 3 the quoted style code.  The three
`if let` branches of the source are the nested matches here. -/
def WinDialog.get_params (self : WinDialog) : List (Option String) :=
  match self.style with
  | some style =>
      [some ("\"" ++ self.content ++ "\""),
       some (toString (self.display_duration.getD 0)),
       some (self.header.getD ""),
       some ("\"" ++ toString style.code ++ "\"")]
  | none =>
    match self.header with
    | some header =>
        [some ("\"" ++ self.content ++ "\""), some "", some header, none]
    | none =>
      match self.display_duration with
      | some duration =>
          [some ("\"" ++ self.content ++ "\""), some (toString duration), none, none]
      | none =>
          [some ("\"" ++ self.content ++ "\""), none, none, none]

/-- `params.into_iter().flatten().collect::<Vec<_>>()` (src/lib.rs,
line 31). -/
def WinDialog.get_args (self : WinDialog) : List String :=
  self.get_params.filterMap id

/-- `args.join(", ")` (src/lib.rs, line 32). -/
def WinDialog.get_param_string (self : WinDialog) : String :=
  String.intercalate ", " self.get_args

/-- The flat `DialogResponse` enum of the shell-mediated iteration
(src/lib.rs, lines 61-71). -/
inductive DialogResponse where
  | Ok
  | Cancel
  | Abort
  | Retry
  | Ignore
  | Yes
  | No
  | Rerun
  | Continue
deriving DecidableEq, Repr

/-- Model of Rust `str::parse::<u8>()`: an optional leading `+`, then one
or more ASCII digits, value at most 255; anything else is a parse error
(`none`). -/
def parse_u8 (s : String) : Option Nat :=
  let cs := s.toList
  let cs := match cs with
    | '+' :: rest => rest
    | other => other
  if cs.isEmpty then none
  else if cs.all Char.isDigit then
    let v := cs.foldl (fun acc c => acc * 10 + (c.toNat - 48)) 0
    if v ≤ 255 then some v else none
  else none

/-- `TryFrom<String> for DialogResponse` (src/lib.rs, lines 73-97).  The
associated error type is `String`.  The `Err` arm of the parse is
`todo!("return err")`, i.e. a panic, modelled by `PanicOr.panics`. -/
def DialogResponse.tryFromString (value : String) :
    PanicOr (Except String DialogResponse) :=
  match parse_u8 value with
  | none => .panics "return err"
  | some code =>
    .returns (match code with
      | 1 => .ok .Ok
      | 2 => .ok .Cancel
      | 3 => .ok .Abort
      | 4 => .ok .Retry
      | 5 => .ok .Ignore
      | 6 => .ok .Yes
      | 7 => .ok .No
      | 10 => .ok .Rerun
      | 11 => .ok .Continue
      | _ => .error "err")

/-- Opaque payload of a `std::io::Error` raised while spawning the
external process. -/
abbrev IoError := String

/-- The observable part of `std::process::Output` that `show` consumes:
whether the exit status was success, and the captured stdout.  `stdout`
is `some s` when the bytes were valid UTF-8 with contents `s`, and `none`
when they were not (the `String::from_utf8` failure case). -/
structure Output where
  success : Bool
  stdout : Option String
deriving DecidableEq, Repr

/-- `WinDialog::show` (src/lib.rs, lines 35-58).  The PowerShell child
process is the stub `powershell`, mapping the generated command line to
either a spawn error (the `?` on `Command::output`) or an `Output`.
Mirrors the source exactly: a non-success exit status hits `todo!()`;
invalid-UTF-8 stdout hits `todo!("error")`; otherwise stdout is filtered
to its numeric characters, `DialogResponse::try_from` is evaluated and
its result bound to the unused `it`, and the function returns the
hard-coded `Ok(DialogResponse::Ok)`.  (Rust `char::is_numeric` is
modelled as `Char.isDigit`; the two agree on all ASCII output.) -/
def WinDialog.«show» (self : WinDialog)
    (powershell : String → Except IoError Output) :
    PanicOr (Except IoError DialogResponse) :=
  let command :=
    "(New-Object -ComObject Wscript.Shell).popup(" ++ self.get_param_string ++ ")"
  match powershell command with
  | .error e => .returns (.error e)
  | .ok output =>
    if output.success = false then
      .panics "not yet implemented"
    else
      match output.stdout with
      | none => .panics "error"
      | some raw =>
        let code_raw := String.mk (raw.toList.filter Char.isDigit)
        match DialogResponse.tryFromString code_raw with
        | .panics msg => .panics msg
        | .returns _it => .returns (.ok DialogResponse.Ok)

end Shell

namespace Native

/-! Constants of the `windows` crate used by the native iteration.
`MESSAGEBOX_STYLE` wraps a `u32`, modelled as `Nat`; `MESSAGEBOX_RESULT`
wraps an `i32`, modelled as `Int`. -/

def MB_OK : Nat := 0x0
def MB_OKCANCEL : Nat := 0x1
def MB_ABORTRETRYIGNORE : Nat := 0x2
def MB_YESNOCANCEL : Nat := 0x3
def MB_YESNO : Nat := 0x4
def MB_RETRYCANCEL : Nat := 0x5
def MB_CANCELTRYCONTINUE : Nat := 0x6

def MB_HELP : Nat := 0x4000
def MB_DEFBUTTON1 : Nat := 0x0
def MB_DEFBUTTON2 : Nat := 0x100
def MB_DEFBUTTON3 : Nat := 0x200
def MB_DEFBUTTON4 : Nat := 0x300
def MB_DEFAULT_DESKTOP_ONLY : Nat := 0x20000
def MB_RIGHT : Nat := 0x80000
def MB_RTLREADING : Nat := 0x100000
def MB_SETFOREGROUND : Nat := 0x10000
def MB_TOPMOST : Nat := 0x40000
def MB_SERVICE_NOTIFICATION : Nat := 0x200000

def MB_ICONEXCLAMATION : Nat := 0x30
def MB_ICONWARNING : Nat := 0x30
def MB_ICONINFORMATION : Nat := 0x40
def MB_ICONASTERISK : Nat := 0x40
def MB_ICONQUESTION : Nat := 0x20
def MB_ICONSTOP : Nat := 0x10
def MB_ICONERROR : Nat := 0x10
def MB_ICONHAND : Nat := 0x10

def MB_APPLMODAL : Nat := 0x0
def MB_TASKMODAL : Nat := 0x2000
def MB_SYSTEMMODAL : Nat := 0x1000

def IDOK : Int := 1
def IDCANCEL : Int := 2
def IDABORT : Int := 3
def IDRETRY : Int := 4
def IDIGNORE : Int := 5
def IDYES : Int := 6
def IDNO : Int := 7
def IDCONTINUE : Int := 11

/-- `Icon` (src/icon.rs, lines 11-42).  `Question` is gated behind the
crate's `deprecated` feature in the source; it is included here with its
code. -/
inductive Icon where
  | Exclamation
  | Warning
  | Information
  | Asterisk
  | Question
  | Stop
  | Error
  | Hand
deriving DecidableEq, Repr

/-- `From<Icon> for MESSAGEBOX_STYLE` (src/icon.rs, lines 44-58). -/
def Icon.code : Icon → Nat
  | .Exclamation => MB_ICONEXCLAMATION
  | .Warning => MB_ICONWARNING
  | .Information => MB_ICONINFORMATION
  | .Asterisk => MB_ICONASTERISK
  | .Question => MB_ICONQUESTION
  | .Stop => MB_ICONSTOP
  | .Error => MB_ICONERROR
  | .Hand => MB_ICONHAND

/-- `Modality` (src/modality.rs, lines 7-32); `App` is the
`#[default]`. -/
inductive Modality where
  | App
  | Task
  | System
deriving DecidableEq, Repr

/-- `From<Modality> for MESSAGEBOX_STYLE` (src/modality.rs, lines
34-42). -/
def Modality.code : Modality → Nat
  | .App => MB_APPLMODAL
  | .Task => MB_TASKMODAL
  | .System => MB_SYSTEMMODAL

/-- The crate `Error` enum (src/error.rs, lines 6-16).  These are its
only two variants.  `InvalidString` wraps the `NulError` produced by
`CString::new`, modelled by the index of the offending interior NUL. -/
inductive Error where
  | UnknownResponseCode (code : Int)
  | InvalidString (pos : Nat)
deriving DecidableEq, Repr

/-- Responses of the `Ok_` style (src/style.rs, lines 40-43). -/
inductive OkResponse where
  | Ok
deriving DecidableEq, Repr

/-- `TryFrom<MESSAGEBOX_RESULT> for OkResponse` (src/style.rs, lines
45-55). -/
def OkResponse.tryFrom (value : Int) : Except Error OkResponse :=
  if value = IDOK then .ok .Ok
  else .error (.UnknownResponseCode value)

/-- Responses of the `OkCancel` style (src/style.rs, lines 91-96). -/
inductive OkCancelResponse where
  | Ok
  | Cancel
deriving DecidableEq, Repr

/-- `TryFrom<MESSAGEBOX_RESULT> for OkCancelResponse` (src/style.rs,
lines 73-87). -/
def OkCancelResponse.tryFrom (value : Int) : Except Error OkCancelResponse :=
  if value = IDOK then .ok .Ok
  else if value = IDCANCEL then .ok .Cancel
  else .error (.UnknownResponseCode value)

/-- Responses of the `AbortRetryIgnore` style (src/style.rs, lines
116-123). -/
inductive AbortRetryIgnoreResponse where
  | Abort
  | Retry
  | Ignore
deriving DecidableEq, Repr

/-- `TryFrom<MESSAGEBOX_RESULT> for AbortRetryIgnoreResponse`
(src/style.rs, lines 125-141). -/
def AbortRetryIgnoreResponse.tryFrom (value : Int) :
    Except Error AbortRetryIgnoreResponse :=
  if value = IDABORT then .ok .Abort
  else if value = IDRETRY then .ok .Retry
  else if value = IDIGNORE then .ok .Ignore
  else .error (.UnknownResponseCode value)

/-- Responses of the `YesNoCancel` style (src/style.rs, lines
179-186). -/
inductive YesNoCancelResponse where
  | Yes
  | No
  | Cancel
deriving DecidableEq, Repr

/-- `TryFrom<MESSAGEBOX_RESULT> for YesNoCancelResponse` (src/style.rs,
lines 159-175). -/
def YesNoCancelResponse.tryFrom (value : Int) :
    Except Error YesNoCancelResponse :=
  if value = IDYES then .ok .Yes
  else if value = IDNO then .ok .No
  else if value = IDCANCEL then .ok .Cancel
  else .error (.UnknownResponseCode value)

/-- Responses of the `YesNo` style (src/style.rs, lines 205-210). -/
inductive YesNoResponse where
  | Yes
  | No
deriving DecidableEq, Repr

/-- `TryFrom<MESSAGEBOX_RESULT> for YesNoResponse` (src/style.rs, lines
212-226). -/
def YesNoResponse.tryFrom (value : Int) : Except Error YesNoResponse :=
  if value = IDYES then .ok .Yes
  else if value = IDNO then .ok .No
  else .error (.UnknownResponseCode value)

/-- Responses of the `RetryCancel` style (src/style.rs, lines
246-251). -/
inductive RetryCancelResponse where
  | Retry
  | Cancel
deriving DecidableEq, Repr

/-- `TryFrom<MESSAGEBOX_RESULT> for RetryCancelResponse` (src/style.rs,
lines 253-267). -/
def RetryCancelResponse.tryFrom (value : Int) :
    Except Error RetryCancelResponse :=
  if value = IDRETRY then .ok .Retry
  else if value = IDCANCEL then .ok .Cancel
  else .error (.UnknownResponseCode value)

/-- Responses of the `CancelRetryContinue` style (src/style.rs, lines
286-293). -/
inductive CancelRetryContinueResponse where
  | Cancel
  | Retry
  | Continue
deriving DecidableEq, Repr

/-- `TryFrom<MESSAGEBOX_RESULT> for CancelRetryContinueResponse`
(src/style.rs, lines 295-311).  Note: the source compares against
`IDRETRY` (4), and has no branch for `IDTRYAGAIN` (10). -/
def CancelRetryContinueResponse.tryFrom (value : Int) :
    Except Error CancelRetryContinueResponse :=
  if value = IDRETRY then .ok .Retry
  else if value = IDCANCEL then .ok .Cancel
  else if value = IDCONTINUE then .ok .Continue
  else .error (.UnknownResponseCode value)

/-- The seven zero-sized style marker structs of src/style.rs, collapsed
into one tag type: the Rust type parameter `T: DialogStyle` of
`WinDialog<T>` becomes a `StyleTag` index. -/
inductive StyleTag where
  | Ok_
  | OkCancel
  | AbortRetryIgnore
  | YesNoCancel
  | YesNo
  | RetryCancel
  | CancelRetryContinue
deriving DecidableEq, Repr

/-- The `From<_> for MESSAGEBOX_STYLE` impl of each style marker
(src/style.rs). -/
def StyleTag.styleCode : StyleTag → Nat
  | .Ok_ => MB_OK
  | .OkCancel => MB_OKCANCEL
  | .AbortRetryIgnore => MB_ABORTRETRYIGNORE
  | .YesNoCancel => MB_YESNOCANCEL
  | .YesNo => MB_YESNO
  | .RetryCancel => MB_RETRYCANCEL
  | .CancelRetryContinue => MB_CANCELTRYCONTINUE

/-- The associated type `DialogStyle::Return` of each style
(src/style.rs). -/
def StyleTag.Return : StyleTag → Type
  | .Ok_ => OkResponse
  | .OkCancel => OkCancelResponse
  | .AbortRetryIgnore => AbortRetryIgnoreResponse
  | .YesNoCancel => YesNoCancelResponse
  | .YesNo => YesNoResponse
  | .RetryCancel => RetryCancelResponse
  | .CancelRetryContinue => CancelRetryContinueResponse

/-- The `TryFrom<MESSAGEBOX_RESULT>` impl of each style's `Return` type
(src/style.rs), dispatched on the style tag. -/
def StyleTag.tryFromResult : (T : StyleTag) → Int → Except Error T.Return
  | .Ok_ => OkResponse.tryFrom
  | .OkCancel => OkCancelResponse.tryFrom
  | .AbortRetryIgnore => AbortRetryIgnoreResponse.tryFrom
  | .YesNoCancel => YesNoCancelResponse.tryFrom
  | .YesNo => YesNoResponse.tryFrom
  | .RetryCancel => RetryCancelResponse.tryFrom
  | .CancelRetryContinue => CancelRetryContinueResponse.tryFrom

/-- Index of the first NUL character of a string, if any.  `CString::new`
succeeds exactly when this is `none`, and otherwise reports this position
in its `NulError`. -/
def firstNulPos (s : String) : Option Nat :=
  s.toList.findIdx? (fun c => c = Char.ofNat 0)

/-- The `WinDialog<T>` builder of the native iteration (src/dialog.rs,
lines 30-74).  The Rust type parameter is the `StyleTag` index; the
zero-sized `style: T` field carries no data.  `default_button` holds a
`MESSAGEBOX_STYLE` word and `HWND` values are modelled as `Int`.  Field
defaults mirror `derive(Default)`. -/
structure WinDialog (T : StyleTag) where
  header : Option String := none
  content : String := ""
  icon : Option Icon := none
  default_button : Nat := 0
  modality : Modality := .App
  default_desktop_only : Bool := false
  right_justify_text : Bool := false
  right_to_left_reading : Bool := false
  foreground : Bool := false
  topmost : Bool := false
  is_service_notification : Bool := false
deriving DecidableEq, Repr

/-- `WinDialog::new` (src/dialog.rs, lines 80-86): content plus
`Default::default()` for everything else, at the default type parameter
`T = OkCancel`. -/
def WinDialog.new (content : String) : WinDialog .OkCancel :=
  { content := content }

/-- `WinDialog::with_header` (src/dialog.rs, lines 95-98). -/
def WinDialog.with_header {T : StyleTag} (self : WinDialog T)
    (header : String) : WinDialog T :=
  { self with header := some header }

/-- `WinDialog::with_icon` (src/dialog.rs, lines 101-104). -/
def WinDialog.with_icon {T : StyleTag} (self : WinDialog T)
    (icon : Icon) : WinDialog T :=
  { self with icon := some icon }

/-- `WinDialog::set_modality` (src/dialog.rs, lines 123-126). -/
def WinDialog.set_modality {T : StyleTag} (self : WinDialog T)
    (modality : Modality) : WinDialog T :=
  { self with modality := modality }

/-- `WinDialog::set_default_desktop_only` (src/dialog.rs, lines
132-135). -/
def WinDialog.set_default_desktop_only {T : StyleTag}
    (self : WinDialog T) : WinDialog T :=
  { self with default_desktop_only := true }

/-- `WinDialog::set_right_justify` (src/dialog.rs, lines 138-141). -/
def WinDialog.set_right_justify {T : StyleTag} (self : WinDialog T) :
    WinDialog T :=
  { self with right_justify_text := true }

/-- `WinDialog::set_right_to_left_reading` (src/dialog.rs, lines
144-147). -/
def WinDialog.set_right_to_left_reading {T : StyleTag}
    (self : WinDialog T) : WinDialog T :=
  { self with right_to_left_reading := true }

/-- `WinDialog::set_foreground` (src/dialog.rs, lines 151-154). -/
def WinDialog.set_foreground {T : StyleTag} (self : WinDialog T) :
    WinDialog T :=
  { self with foreground := true }

/-- `WinDialog::set_topmost` (src/dialog.rs, lines 157-160). -/
def WinDialog.set_topmost {T : StyleTag} (self : WinDialog T) :
    WinDialog T :=
  { self with topmost := true }

/-- `WinDialog::make_service_notification` (src/dialog.rs, lines
176-179). -/
def WinDialog.make_service_notification {T : StyleTag}
    (self : WinDialog T) : WinDialog T :=
  { self with is_service_notification := true }

/-- `WinDialog::with_style` (src/dialog.rs, lines 183-201): the exact
field-by-field copy of the source, re-typed at the new style. -/
def WinDialog.with_style {T : StyleTag} (self : WinDialog T)
    (N : StyleTag) : WinDialog N :=
  { header := self.header
    content := self.content
    foreground := self.foreground
    right_to_left_reading := self.right_to_left_reading
    icon := self.icon
    default_button := self.default_button
    modality := self.modality
    topmost := self.topmost
    is_service_notification := self.is_service_notification
    default_desktop_only := self.default_desktop_only
    right_justify_text := self.right_justify_text }

/-- The combined `MESSAGEBOX_STYLE` word passed to `MessageBoxA` by
`show_inner` (src/dialog.rs, lines 223-268): the bitwise OR of the style
code, icon, help button, default button, and the boolean flags, in the
source's order.  (The `modality` field is never included by the
source.) -/
def WinDialog.style_word {T : StyleTag} (self : WinDialog T)
    (help_button : Nat) : Nat :=
  let icon := match self.icon with
    | some i => i.code
    | none => 0
  let default_button := self.default_button
  let default_deskop_only := if self.default_desktop_only then MB_DEFAULT_DESKTOP_ONLY else 0
  let right_justify := if self.right_justify_text then MB_RIGHT else 0
  let right_to_left_reading := if self.right_to_left_reading then MB_RTLREADING else 0
  let foreground := if self.foreground then MB_SETFOREGROUND else 0
  let topmost := if self.topmost then MB_TOPMOST else 0
  let is_service_notif := if self.is_service_notification then MB_SERVICE_NOTIFICATION else 0
  T.styleCode ||| icon ||| help_button ||| default_button ||| default_deskop_only
    ||| right_justify ||| right_to_left_reading ||| foreground ||| topmost
    ||| is_service_notif

/-- `WinDialog::show_inner` (src/dialog.rs, lines 211-272).  The native
`MessageBoxA` call is the stub `messageBox`, mapping the combined style
word to the raw `MESSAGEBOX_RESULT`.  The two `CString::new(..)?` calls
are the NUL checks (content first, then header); their `NulError` is
converted into `Error::InvalidString` by the `#[from]` impl.  On success
the raw result is passed to the style's `TryFrom`. -/
def WinDialog.show_inner {T : StyleTag} (self : WinDialog T)
    (help_button : Nat) (messageBox : Nat → Int) : Except Error T.Return :=
  match firstNulPos self.content with
  | some p => .error (.InvalidString p)
  | none =>
    let headerCheck : Except Error Unit :=
      match self.header with
      | some header =>
        match firstNulPos header with
        | some p => .error (.InvalidString p)
        | none => .ok ()
      | none => .ok ()
    match headerCheck with
    | .error e => .error e
    | .ok _ => T.tryFromResult (messageBox (self.style_word help_button))

/-- `WinDialog::show` (src/dialog.rs, lines 205-207): `show_inner` with
`Default::default()` (no help button). -/
def WinDialog.«show» {T : StyleTag} (self : WinDialog T)
    (messageBox : Nat → Int) : Except Error T.Return :=
  self.show_inner 0 messageBox

/-- `WinDialogWithParent<T>` (src/dialog.rs, lines 342-355). -/
structure WinDialogWithParent (T : StyleTag) where
  inner : WinDialog T
  window_handle : Int := 0
  show_help_button : Bool := false
deriving DecidableEq, Repr

/-- `WinDialog::set_parent_window` (src/dialog.rs, lines 113-120): the
service-notification flag is cleared, then the dialog is wrapped with the
handle; `show_help_button` comes from `Default::default()`. -/
def WinDialog.set_parent_window {T : StyleTag} (self : WinDialog T)
    (handle : Int) : WinDialogWithParent T :=
  { inner := { self with is_service_notification := false }
    window_handle := handle
    show_help_button := false }

/-- `WinDialogWithParent::with_help_button` (src/dialog.rs, lines
364-367). -/
def WinDialogWithParent.with_help_button {T : StyleTag}
    (self : WinDialogWithParent T) : WinDialogWithParent T :=
  { self with show_help_button := true }

/-- `WinDialogWithParent::with_header` (src/dialog.rs, lines 371-374). -/
def WinDialogWithParent.with_header {T : StyleTag}
    (self : WinDialogWithParent T) (header : String) :
    WinDialogWithParent T :=
  { self with inner := { self.inner with header := some header } }

/-- `WinDialogWithParent::with_icon` (src/dialog.rs, lines 377-380). -/
def WinDialogWithParent.with_icon {T : StyleTag}
    (self : WinDialogWithParent T) (icon : Icon) : WinDialogWithParent T :=
  { self with inner := { self.inner with icon := some icon } }

/-- `WinDialogWithParent::show` (src/dialog.rs, lines 383-390). -/
def WinDialogWithParent.«show» {T : StyleTag}
    (self : WinDialogWithParent T) (messageBox : Nat → Int) :
    Except Error T.Return :=
  let help_button := if self.show_help_button then MB_HELP else 0
  self.inner.show_inner help_button messageBox

/-- `WinDialogWithParent::set_modality` (src/dialog.rs, lines
393-396). -/
def WinDialogWithParent.set_modality {T : StyleTag}
    (self : WinDialogWithParent T) (modality : Modality) :
    WinDialogWithParent T :=
  { self with inner := { self.inner with modality := modality } }

/-- `WinDialogWithParent::set_default_desktop_only` (src/dialog.rs,
lines 402-405). -/
def WinDialogWithParent.set_default_desktop_only {T : StyleTag}
    (self : WinDialogWithParent T) : WinDialogWithParent T :=
  { self with inner := { self.inner with default_desktop_only := true } }

/-- `WinDialogWithParent::set_right_justify` (src/dialog.rs, lines
408-411). -/
def WinDialogWithParent.set_right_justify {T : StyleTag}
    (self : WinDialogWithParent T) : WinDialogWithParent T :=
  { self with inner := { self.inner with right_justify_text := true } }

/-- `WinDialogWithParent::set_right_to_left_reading` (src/dialog.rs,
lines 414-417). -/
def WinDialogWithParent.set_right_to_left_reading {T : StyleTag}
    (self : WinDialogWithParent T) : WinDialogWithParent T :=
  { self with inner := { self.inner with right_to_left_reading := true } }

/-- `WinDialogWithParent::set_foreground` (src/dialog.rs, lines
421-424). -/
def WinDialogWithParent.set_foreground {T : StyleTag}
    (self : WinDialogWithParent T) : WinDialogWithParent T :=
  { self with inner := { self.inner with foreground := true } }

/-- `WinDialogWithParent::set_topmost` (src/dialog.rs, lines 427-430). -/
def WinDialogWithParent.set_topmost {T : StyleTag}
    (self : WinDialogWithParent T) : WinDialogWithParent T :=
  { self with inner := { self.inner with topmost := true } }

/-- `WinDialogWithParent::with_style` (src/dialog.rs, lines 434-456):
the exact field list of the source.  Note the source writes
`is_service_notification: false` rather than copying the field. -/
def WinDialogWithParent.with_style {T : StyleTag}
    (self : WinDialogWithParent T) (N : StyleTag) :
    WinDialogWithParent N :=
  { inner :=
      { header := self.inner.header
        content := self.inner.content
        topmost := self.inner.topmost
        is_service_notification := false
        right_to_left_reading := self.inner.right_to_left_reading
        modality := self.inner.modality
        icon := self.inner.icon
        default_button := self.inner.default_button
        default_desktop_only := self.inner.default_desktop_only
        right_justify_text := self.inner.right_justify_text
        foreground := self.inner.foreground }
    window_handle := self.window_handle
    show_help_button := self.show_help_button }

/-- Generic model of the per-style `set_default_*` helpers on
`WinDialogWithParent` (src/dialog.rs, lines 459-570): each of them only
overwrites `inner.default_button` with a fixed `MB_DEFBUTTON*`
constant.  This definition, with the constant as an argument, covers all
of them. -/
def WinDialogWithParent.set_default_button {T : StyleTag}
    (self : WinDialogWithParent T) (b : Nat) : WinDialogWithParent T :=
  { self with inner := { self.inner with default_button := b } }

/-- The dialogs with a parent window that are reachable through the
public API: every such value starts as `set_parent_window` applied to
some `WinDialog` (whose fields are arbitrary, since every `WinDialog`
setter is public), followed by any sequence of the public
`WinDialogWithParent` methods.  The `set_default_button` constructor
over-approximates the thirteen per-style `set_default_*` helpers. -/
inductive ReachableParent : {T : StyleTag} → WinDialogWithParent T → Prop where
  | set_parent {T : StyleTag} (d : WinDialog T) (handle : Int) :
      ReachableParent (d.set_parent_window handle)
  | with_help_button {T : StyleTag} {p : WinDialogWithParent T} :
      ReachableParent p → ReachableParent p.with_help_button
  | with_header {T : StyleTag} {p : WinDialogWithParent T} (s : String) :
      ReachableParent p → ReachableParent (p.with_header s)
  | with_icon {T : StyleTag} {p : WinDialogWithParent T} (i : Icon) :
      ReachableParent p → ReachableParent (p.with_icon i)
  | set_modality {T : StyleTag} {p : WinDialogWithParent T} (m : Modality) :
      ReachableParent p → ReachableParent (p.set_modality m)
  | set_default_desktop_only {T : StyleTag} {p : WinDialogWithParent T} :
      ReachableParent p → ReachableParent p.set_default_desktop_only
  | set_right_justify {T : StyleTag} {p : WinDialogWithParent T} :
      ReachableParent p → ReachableParent p.set_right_justify
  | set_right_to_left_reading {T : StyleTag} {p : WinDialogWithParent T} :
      ReachableParent p → ReachableParent p.set_right_to_left_reading
  | set_foreground {T : StyleTag} {p : WinDialogWithParent T} :
      ReachableParent p → ReachableParent p.set_foreground
  | set_topmost {T : StyleTag} {p : WinDialogWithParent T} :
      ReachableParent p → ReachableParent p.set_topmost
  | with_style {T : StyleTag} {p : WinDialogWithParent T} (N : StyleTag) :
      ReachableParent p → ReachableParent (p.with_style N)
  | set_default_button {T : StyleTag} {p : WinDialogWithParent T} (b : Nat) :
      ReachableParent p → ReachableParent (p.set_default_button b)

end Native

/-! Theorems settling the claims. -/

open Shell Native

/-- Claim C1 (code bug): the claim says the Cancel/Retry/Continue decoder
maps the backend's Retry/Try-Again button code 10 to `Retry` and rejects
every code outside {2, 10, 11}.  The source instead compares against
`IDRETRY` (4): it rejects 10 — the `IDTRYAGAIN` value that `MessageBoxA`
documents as the return for the Try Again button of an
`MB_CANCELTRYCONTINUE` box — with `UnknownResponseCode(10)`, and accepts
4, a value such a box never returns.  This theorem evaluates the decoder
at the failing inputs. -/
theorem crc_decode_rejects_try_again_code :
    CancelRetryContinueResponse.tryFrom 10 = .error (.UnknownResponseCode 10) ∧
    CancelRetryContinueResponse.tryFrom 4 = .ok .Retry ∧
    CancelRetryContinueResponse.tryFrom 2 = .ok .Cancel ∧
    CancelRetryContinueResponse.tryFrom 11 = .ok .Continue :=
  ⟨rfl, rfl, rfl, rfl⟩

/-- Claim C2 (counterexample): the claim says `with_style` carries over
every non-style field, naming `is_service_notification` also for a
configuration with a parent window.  On a `WinDialogWithParent` whose
service-notification flag is `true`, `with_style` produces `false`
instead of carrying the flag over (src/dialog.rs, line 444). -/
theorem with_style_parent_clears_service_flag_cex :
    ¬ ((({ inner := { content := "x", is_service_notification := true } } :
          WinDialogWithParent .OkCancel).with_style .YesNo).inner.is_service_notification
       = ({ inner := { content := "x", is_service_notification := true } } :
          WinDialogWithParent .OkCancel).inner.is_service_notification) := by
  decide

/-- Claim C2 (amended): for a `WinDialog`, `with_style` returns a
configuration of the new style with every other field equal to the
input's; for a `WinDialogWithParent`, it likewise preserves every field
including `window_handle` and `show_help_button`, except that the
service-notification flag of the result is `false` (which coincides with
carrying it over exactly on the dialogs satisfying the reachable-parent
invariant of claim C10). -/
theorem with_style_preserves_other_fields :
    (∀ (T N : StyleTag) (d : WinDialog T),
      ((d.with_style N).header = d.header) ∧
      ((d.with_style N).content = d.content) ∧
      ((d.with_style N).icon = d.icon) ∧
      ((d.with_style N).default_button = d.default_button) ∧
      ((d.with_style N).modality = d.modality) ∧
      ((d.with_style N).default_desktop_only = d.default_desktop_only) ∧
      ((d.with_style N).right_justify_text = d.right_justify_text) ∧
      ((d.with_style N).right_to_left_reading = d.right_to_left_reading) ∧
      ((d.with_style N).foreground = d.foreground) ∧
      ((d.with_style N).topmost = d.topmost) ∧
      ((d.with_style N).is_service_notification = d.is_service_notification)) ∧
    (∀ (T N : StyleTag) (p : WinDialogWithParent T),
      ((p.with_style N).inner.header = p.inner.header) ∧
      ((p.with_style N).inner.content = p.inner.content) ∧
      ((p.with_style N).inner.icon = p.inner.icon) ∧
      ((p.with_style N).inner.default_button = p.inner.default_button) ∧
      ((p.with_style N).inner.modality = p.inner.modality) ∧
      ((p.with_style N).inner.default_desktop_only = p.inner.default_desktop_only) ∧
      ((p.with_style N).inner.right_justify_text = p.inner.right_justify_text) ∧
      ((p.with_style N).inner.right_to_left_reading = p.inner.right_to_left_reading) ∧
      ((p.with_style N).inner.foreground = p.inner.foreground) ∧
      ((p.with_style N).inner.topmost = p.inner.topmost) ∧
      ((p.with_style N).window_handle = p.window_handle) ∧
      ((p.with_style N).show_help_button = p.show_help_button) ∧
      ((p.with_style N).inner.is_service_notification = false)) :=
  ⟨fun _ _ _ => ⟨rfl, rfl, rfl, rfl, rfl, rfl, rfl, rfl, rfl, rfl, rfl⟩,
   fun _ _ _ => ⟨rfl, rfl, rfl, rfl, rfl, rfl, rfl, rfl, rfl, rfl, rfl, rfl, rfl⟩⟩

/-- Claim C3 (code bug): the claim says the shell-mediated `show`, when
the process exits successfully with a valid code on stdout, returns
`Ok` of the variant the table assigns to the code (e.g. `7` on a YesNo
dialog yields `Ok(No)`).  The source (src/lib.rs, lines 55-57) binds the
decoded response to the unused `it` and returns the hard-coded
`Ok(DialogResponse::Ok)`: the YesNo dialog with stdout `"7\r\n"` yields
`Ok(DialogResponse::Ok)`, even though the discarded decode of `"7"` is
`Ok(No)`. -/
theorem shell_show_discards_decoded_response :
    (Shell.WinDialog.mk none "Proceed?" none (some .YesNo)).«show»
        (fun _ => .ok ⟨true, some "7\r\n"⟩)
      = .returns (.ok .Ok) ∧
    DialogResponse.tryFromString "7" = .returns (.ok .No) :=
  ⟨rfl, rfl⟩

/-- Claim C4 (code bug): the claim says unparseable response text yields
a returned `Err(MalformedCode)`, never a panic.  The source's
`TryFrom<String> for DialogResponse` hits `todo!("return err")` — a
panic — when the parse fails (src/lib.rs, line 79), so the shell `show`
on stdout `"abc\r\n"` (filtered to the unparseable `""`) panics; and the
crate's `Error` enum (src/error.rs) has only the `UnknownResponseCode`
and `InvalidString` variants — no `MalformedCode` exists. -/
theorem shell_show_panics_on_malformed_code :
    (Shell.WinDialog.mk none "x" none none).«show»
        (fun _ => .ok ⟨true, some "abc\r\n"⟩) = .panics "return err" ∧
    DialogResponse.tryFromString "abc" = .panics "return err" ∧
    ∀ e : Native.Error,
      (∃ c, e = .UnknownResponseCode c) ∨ (∃ p, e = .InvalidString p) :=
  ⟨rfl, rfl, fun e => match e with
    | .UnknownResponseCode c => Or.inl ⟨c, rfl⟩
    | .InvalidString p => Or.inr ⟨p, rfl⟩⟩

/-- Claim C5 (code bug): the claim (and the doc comment of
`WinDialog::new` itself, src/dialog.rs lines 77-79: "only an Ok button")
says a fresh configuration has the Ok-only layout, so dispatch can only
yield the Ok response or an error.  The source constructs
`WinDialog<OkCancel>` with `style: OkCancel` (MB_OKCANCEL, code 1, not
MB_OK, code 0): its dialog also offers Cancel, and a native result of
`IDCANCEL` decodes to `Ok(Cancel)`, a non-Ok success. -/
theorem new_dialog_style_is_ok_cancel :
    StyleTag.styleCode .OkCancel = MB_OKCANCEL ∧
    MB_OKCANCEL ≠ MB_OK ∧
    (Native.WinDialog.new "x").«show» (fun _ => IDCANCEL)
      = Except.ok OkCancelResponse.Cancel :=
  ⟨rfl, by decide, rfl⟩

/-- Claim C6 (counterexample): the claim says every caller-supplied text
embedded in the generated command is wrapped in double quotes with each
double-quote and backtick prefixed by a backtick.  For a body text
containing a double quote, the serialized string contains no backtick at
all (src/lib.rs, line 13 formats the content with no escaping), although
the escaping the claim describes would have inserted one. -/
theorem get_param_string_no_escaping_cex :
    (({ content := "a\"b" } : Shell.WinDialog).get_param_string).toList.contains
        (Char.ofNat 96) = false ∧
    ("a\"b" : String).toList.contains (Char.ofNat 34) = true := by
  exact ⟨by decide, by decide⟩

/-- Claim C6 (amended): the serialization wraps the body text in double
quotes verbatim, with no escaping of quote or backtick characters (and
the header, when rendered, is embedded unquoted); for a text containing
no quote or backtick the result is still exactly the text plus the two
wrapping quotes. -/
theorem get_param_string_wraps_content_verbatim (t : String) :
    ({ content := t } : Shell.WinDialog).get_param_string
      = "\"" ++ t ++ "\"" := rfl

/-- Claim C7 (counterexample): the claim says that with a style set, a
configuration with no header serializes differently from one whose
header is the explicit empty string.  With a style set the source passes
the header through `unwrap_or_default()` (src/lib.rs, line 17), so both
render as the same empty unquoted field: the two serializations are
identical. -/
theorem header_absent_vs_empty_collapse_cex :
    (Shell.WinDialog.mk none "x" none (some .OkClose)).get_param_string
      = (Shell.WinDialog.mk (some "") "x" none (some .OkClose)).get_param_string := rfl

/-- Claim C7 (amended): for every configuration in which a style is set,
the absent header and the explicitly empty header serialize to the same
argument list — the absent/empty distinction is not preserved by the
shell serialization (it only shows up when no style is set). -/
theorem header_absent_vs_empty_same_with_style (c : String)
    (dur : Option Nat) (st : Shell.DialogStyle) :
    (Shell.WinDialog.mk none c dur (some st)).get_param_string
      = (Shell.WinDialog.mk (some "") c dur (some st)).get_param_string := rfl

/-- Claim C8: a configuration with only body text serializes to exactly
one positional argument (the quoted content, no trailing empty-string
placeholders), and one with body text and a duration but no header and
no style serializes to exactly the two arguments quoted-content and
duration-seconds.  Trailing absent fields are omitted, not rendered
empty. -/
theorem get_args_omits_trailing_absent_fields (c : String) (n : Nat) :
    (Shell.WinDialog.mk none c none none).get_args = ["\"" ++ c ++ "\""] ∧
    (Shell.WinDialog.mk none c (some n) none).get_args
      = ["\"" ++ c ++ "\"", toString n] :=
  ⟨rfl, rfl⟩

/-- Claim C9: if the content or the header of a native dialog contains
an embedded NUL, `show_inner` returns `Err(InvalidString ..)` without
consulting the native `MessageBoxA` stub (its result is independent of
the stub); if neither contains a NUL, the string conversion cannot fail
and the stub's numeric return is always passed to the style's decoder. -/
theorem show_inner_nul_check :
    ∀ (T : StyleTag) (d : Native.WinDialog T) (help : Nat) (mb1 mb2 : Nat → Int),
      (((firstNulPos d.content).isSome = true ∨
          ∃ h, d.header = some h ∧ (firstNulPos h).isSome = true) →
        (d.show_inner help mb1 = d.show_inner help mb2 ∧
         ∃ p, d.show_inner help mb1 = .error (.InvalidString p))) ∧
      ((firstNulPos d.content = none ∧
          (∀ h, d.header = some h → firstNulPos h = none)) →
        d.show_inner help mb1 = T.tryFromResult (mb1 (d.style_word help))) := by
  intro T d help mb1 mb2
  constructor
  · intro hcase
    cases hc : firstNulPos d.content with
    | some p =>
      have e1 : d.show_inner help mb1 = .error (.InvalidString p) := by
        simp only [Native.WinDialog.show_inner, hc]
      have e2 : d.show_inner help mb2 = .error (.InvalidString p) := by
        simp only [Native.WinDialog.show_inner, hc]
      exact ⟨e1.trans e2.symm, p, e1⟩
    | none =>
      rcases hcase with h1 | ⟨h, hh, hnul⟩
      · rw [hc] at h1; simp at h1
      · rcases Option.isSome_iff_exists.mp hnul with ⟨p, hp⟩
        have e1 : d.show_inner help mb1 = .error (.InvalidString p) := by
          simp only [Native.WinDialog.show_inner, hc, hh, hp]
        have e2 : d.show_inner help mb2 = .error (.InvalidString p) := by
          simp only [Native.WinDialog.show_inner, hc, hh, hp]
        exact ⟨e1.trans e2.symm, p, e1⟩
  · rintro ⟨hc, hh⟩
    cases hd : d.header with
    | none => simp only [Native.WinDialog.show_inner, hc, hd]
    | some h =>
      have hn := hh h hd
      simp only [Native.WinDialog.show_inner, hc, hd, hn]

/-- Claim C9 witness: both parts of `show_inner_nul_check` instantiated
at concrete dialogs — one whose content embeds a NUL (two different
stubs give the same `InvalidString` error), and a clean `new "x"` whose
result is the decoder applied to the stub's return. -/
theorem show_inner_nul_check_witness :
    (({ content := "a\x00b" } : Native.WinDialog .OkCancel).show_inner 0 (fun _ => 1) =
      ({ content := "a\x00b" } : Native.WinDialog .OkCancel).show_inner 0 (fun _ => 7) ∧
     ∃ p, ({ content := "a\x00b" } : Native.WinDialog .OkCancel).show_inner 0 (fun _ => 1)
        = .error (.InvalidString p)) ∧
    ((Native.WinDialog.new "x").show_inner 0 (fun _ => 1) =
      StyleTag.tryFromResult .OkCancel
        ((fun _ : Nat => (1 : Int)) ((Native.WinDialog.new "x").style_word 0))) :=
  ⟨(show_inner_nul_check _ _ 0 (fun _ => 1) (fun _ => 7)).1 (Or.inl (by decide)),
   (show_inner_nul_check _ _ 0 (fun _ => 1) (fun _ => 7)).2
     ⟨by decide, fun h hh => by cases hh⟩⟩

/-- Claim C10: every dialog with a parent window reachable through the
public API has its service-notification flag equal to `false` —
`set_parent_window` clears it on construction, `with_style` on a
parented dialog writes `false` again, and no parented-dialog operation
sets it to `true`. -/
theorem reachable_parent_never_service_notification :
    ∀ {T : StyleTag} (p : WinDialogWithParent T),
      ReachableParent p → p.inner.is_service_notification = false := by
  intro T p h
  induction h with
  | set_parent d handle => rfl
  | with_help_button _ ih => exact ih
  | with_header s _ ih => exact ih
  | with_icon i _ ih => exact ih
  | set_modality m _ ih => exact ih
  | set_default_desktop_only _ ih => exact ih
  | set_right_justify _ ih => exact ih
  | set_right_to_left_reading _ ih => exact ih
  | set_foreground _ ih => exact ih
  | set_topmost _ ih => exact ih
  | with_style N _ ih => rfl
  | set_default_button b _ ih => exact ih

/-- Claim C10 witness: a parented dialog built from a `WinDialog` on
which `make_service_notification` had been called is reachable, and its
flag is `false`. -/
theorem reachable_parent_never_service_witness :
    ReachableParent (((Native.WinDialog.new "x").make_service_notification).set_parent_window 5) ∧
    (((Native.WinDialog.new "x").make_service_notification).set_parent_window 5).inner.is_service_notification
      = false :=
  ⟨ReachableParent.set_parent _ _,
   reachable_parent_never_service_notification _
     (ReachableParent.set_parent
       ((Native.WinDialog.new "x").make_service_notification) 5)⟩

end WinDialogSpec
